import Mathlib

/-!
Verification development for the DeepFake_Forensic video-forensics worker.

This file gives a shallow embedding, in Lean 4, of the parts of the
repository that the checked claims are about:

* the frame samplers of `video_copy_move.py` and
  `VidTraditional/optical_flow_analysis.py`;
* the per-frame copy-move detection of `video_copy_move.py`;
* the score aggregation of the five traditional detectors
  (optical flow, temporal, frequency, noise, copy-move);
* the Kafka worker loop of `py/server/kafka_worker.py` (dedup ledger,
  progress tracker, artifact upload, result publication).

Real-valued quantities are modelled with `ℚ` (the Python code computes with
IEEE doubles; we use exact rationals, so float rounding itself is not
modelled).  `np.std` is the square root of the variance and is irrational in
general; every comparison against `mean ± sens·std` in the source is
embedded as the exactly equivalent comparison of squares
(`x < μ - s·σ  ↔  0 < μ - x ∧ s²·var < (μ - x)²`, valid because `s·σ ≥ 0`),
which keeps all definitions computable.  Where the value (not just the sign)
of a standard deviation enters a formula, it is taken as an explicit
argument `σ` with the hypothesis `0 ≤ σ`.
-/

namespace DFForensic

/-! ## Rational helpers shared by the detectors -/

/-- `np.clip x lo hi`. -/
def clipQ (x lo hi : ℚ) : ℚ := max lo (min x hi)

/-- `np.mean` of a list (the Python code never takes the mean of an empty
list on the paths the claims quantify over; theorems carry nonemptiness
hypotheses, since `np.mean([])` is NaN while this returns `0`). -/
def meanQ (l : List ℚ) : ℚ := l.sum / l.length

/-- Population variance, as `np.var` / the square of `np.std` (ddof = 0). -/
def varQ (l : List ℚ) : ℚ := meanQ (l.map (fun x => (x - meanQ l) ^ 2))

/-- `np.max` of a nonempty list (`0` for `[]`, unused there). -/
def npMax : List ℚ → ℚ
  | [] => 0
  | x :: xs => xs.foldl max x

/-- The source test `x < μ - sens·σ`, embedded as the equivalent
`0 < μ - x ∧ sens²·var < (μ - x)²` (`σ = √var` is irrational in general). -/
def zLowTest (x mu sens2var : ℚ) : Bool :=
  decide (0 < mu - x) && decide (sens2var < (mu - x) ^ 2)

/-- The source test `x > μ + sens·σ`, embedded via squares as in `zLowTest`. -/
def zHighTest (x mu sens2var : ℚ) : Bool :=
  decide (0 < x - mu) && decide (sens2var < (x - mu) ^ 2)

theorem clipQ_bounds {lo hi : ℚ} (x : ℚ) (h : lo ≤ hi) :
    lo ≤ clipQ x lo hi ∧ clipQ x lo hi ≤ hi := by
  constructor
  · exact le_max_left _ _
  · exact max_le (by exact h) (min_le_right _ _)

theorem meanQ_le {l : List ℚ} {hi : ℚ} (hne : l ≠ []) (h : ∀ x ∈ l, x ≤ hi) :
    meanQ l ≤ hi := by
  have hlen : 0 < (l.length : ℚ) := by
    have : 0 < l.length := List.length_pos.mpr hne
    exact_mod_cast this
  have hsum : l.sum ≤ (l.length : ℚ) * hi := by
    have := List.sum_le_card_nsmul l hi h
    simpa [nsmul_eq_mul] using this
  rw [meanQ, div_le_iff₀ hlen]
  linarith [hsum]

theorem le_meanQ {l : List ℚ} {lo : ℚ} (hne : l ≠ []) (h : ∀ x ∈ l, lo ≤ x) :
    lo ≤ meanQ l := by
  have hlen : 0 < (l.length : ℚ) := by
    have : 0 < l.length := List.length_pos.mpr hne
    exact_mod_cast this
  have hsum : (l.length : ℚ) * lo ≤ l.sum := by
    have := List.card_nsmul_le_sum l lo h
    simpa [nsmul_eq_mul] using this
  rw [meanQ, le_div_iff₀ hlen]
  linarith [hsum]

/-! ## Frame samplers

`video_copy_move.extract_keyframes` (lines 75-92) always computes
`np.linspace(0, total_frames - 1, num_frames, dtype=int)`; `dtype=int`
truncates, so index `i` is `⌊i·(total-1)/(num-1)⌋`.

`optical_flow_analysis.analyze_optical_flow` (lines 338-342) returns every
frame when `total_frames < sample_frames` (strict `<`), otherwise
`np.linspace(0, total_frames - 2, sample_frames, dtype=int)`.

Neither sampler deduplicates the index list.  (`np.linspace` evaluates in
float64; the exact rational floor used here agrees with it away from
representation boundaries, and in particular on every instance used below.)
-/

/-- Index list of `extract_keyframes` in `video_copy_move.py`
(`extract_keyframes` raises before this point when `total = 0`). -/
def extract_keyframes_indices (total num : ℕ) : List ℕ :=
  if num = 0 then []
  else if num = 1 then [0]
  else (List.range num).map (fun i => i * (total - 1) / (num - 1))

/-- Index list of the frame sampler inside `analyze_optical_flow`. -/
def flowFrameIndices (total count : ℕ) : List ℕ :=
  if total < count then List.range total
  else if count = 0 then []
  else if count = 1 then [0]
  else (List.range count).map (fun i => i * (total - 2) / (count - 1))

/-- The sampler the spec describes: `round(i·(total-1)/(count-1))`,
deduplicated, every frame when `total ≤ count`.
Written from the spec's words, for comparison with the source samplers. -/
def claimedSampleIndices (total count : ℕ) : List ℕ :=
  if total ≤ count then List.range total
  else if count ≤ 1 then [0]
  else ((List.range count).map
    (fun i => (round ((i * (total - 1) : ℚ) / (count - 1))).toNat)).dedup

/-! ## Optical-flow statistics (`compute_optical_flow`, lines 114-127)

`flow_density` is `np.sum(magnitude > 0.5) / magnitude.size`: the fraction
of pixels whose flow magnitude exceeds `0.5` pixels. -/

/-- `flow_density` over the flattened magnitude field. -/
def flow_density (mags : List ℚ) : ℚ :=
  (mags.countP (fun m => decide ((1 : ℚ)/2 < m))) / mags.length

/-- The fraction of entries exceeding a threshold; `claimedFlowDensity`
below instantiates it at the spec's threshold of `1.0` pixels. -/
def fractionExceeding (thr : ℚ) (mags : List ℚ) : ℚ :=
  (mags.countP (fun m => decide (thr < m))) / mags.length

/-- The spec's `flow_density`: fraction of pixels with magnitude > 1.0 px.
Written from the spec's words, for comparison with `flow_density`. -/
def claimedFlowDensity (mags : List ℚ) : ℚ := fractionExceeding 1 mags

/-! ## Copy-move detection (`video_copy_move.py`)

`detect_copy_move_in_frame` (lines 95-165): SIFT keypoints are matched
against themselves with `knnMatch(k=2)`; a match `m` (with second
neighbour `n`) is *good* when it is not a self-match and passes the ratio
test `m.distance < threshold · n.distance`.  `is_forged` is decided from
the count of good matches alone; the `> 50` px spatial-separation filter is
applied afterwards, only to build `match_locations` for visualization. -/

/-- One entry of a `knnMatch` result (`cv2.DMatch`). -/
structure MatchRec where
  queryIdx : ℕ
  trainIdx : ℕ
  distance : ℚ
deriving DecidableEq, Repr

/-- The `good_matches` filter of `detect_copy_move_in_frame`
(lines 135-141): pairs of length 2 whose first match is not a self-match
and passes the Lowe ratio test. -/
def goodMatches (matchLists : List (List MatchRec)) (threshold : ℚ) : List MatchRec :=
  matchLists.foldr
    (fun pair acc =>
      match pair with
      | [m, n] =>
          if m.trainIdx ≠ m.queryIdx ∧ m.distance < threshold * n.distance
          then m :: acc else acc
      | _ => acc) []

/-- The location of one good match, kept only when its two keypoints are
spatially separated (lines 149-155); the separation test
`√((x₁-x₂)² + (y₁-y₂)²) > 50` is embedded as the equivalent comparison of
squares. -/
def spatialPair (kps : List (ℚ × ℚ)) (m : MatchRec) :
    Option ((ℚ × ℚ) × (ℚ × ℚ)) :=
  match kps.get? m.queryIdx, kps.get? m.trainIdx with
  | some pt1, some pt2 =>
      if 50 ^ 2 < (pt1.1 - pt2.1) ^ 2 + (pt1.2 - pt2.2) ^ 2
      then some (pt1, pt2) else none
  | _, _ => none

/-- `detect_copy_move_in_frame` (the visualization image is not modelled).
Returns `(is_forged, match_locations)`.  `is_forged` is decided from the
good-match count; the spatial-separation filter only shapes
`match_locations`. -/
def detect_copy_move_in_frame (kps : List (ℚ × ℚ))
    (matchLists : List (List MatchRec)) (min_matches : ℕ := 10)
    (similarity_threshold : ℚ := 8/10) :
    Bool × List ((ℚ × ℚ) × (ℚ × ℚ)) :=
  if kps.length < min_matches then (false, [])
  else
    let good := goodMatches matchLists similarity_threshold
    let is_forged := decide (min_matches ≤ good.length)
    (is_forged, if is_forged then good.filterMap (spatialPair kps) else [])

/-- The count the spec says `is_forged` is decided from: matches passing
the ratio test, not self-matches, and with matched keypoints ≥ 50 px apart.
Written from the spec's words, for comparison with the source's decision. -/
def claimedQualifyingMatches (kps : List (ℚ × ℚ))
    (matchLists : List (List MatchRec)) (threshold : ℚ) : ℕ :=
  ((goodMatches matchLists threshold).filter (fun m =>
    match kps.get? m.queryIdx, kps.get? m.trainIdx with
    | some pt1, some pt2 =>
        decide (50 ^ 2 ≤ (pt1.1 - pt2.1) ^ 2 + (pt1.2 - pt2.2) ^ 2)
    | _, _ => false)).length

/-- Per-frame input of the whole-video copy-move pass: the keypoints and
self-match lists that SIFT + FLANN produce for that frame. -/
structure CMFrame where
  kps : List (ℚ × ℚ)
  matchLists : List (List MatchRec)

/-- Result record of `detect_copy_move` (lines 256-275; file outputs and
heatmap are not modelled). -/
structure CMResult where
  analyzed : ℕ
  detection_score : ℚ
  is_manipulated : Bool
deriving DecidableEq, Repr

/-- The per-frame `is_forged` flags of `detect_copy_move`. -/
def cmFlags (frames : List CMFrame) (min_matches : ℕ) (thr : ℚ) : List Bool :=
  frames.map (fun f =>
    (detect_copy_move_in_frame f.kps f.matchLists min_matches thr).1)

/-- `detection_score` of `detect_copy_move` (lines 256-258): the fraction
of analyzed frames flagged, `0.0` when no frame decoded. -/
def cmDetectionScore (frames : List CMFrame) (min_matches : ℕ) (thr : ℚ) : ℚ :=
  if frames.isEmpty then 0
  else ((cmFlags frames min_matches thr).countP id : ℚ) / frames.length

/-- Score aggregation of `detect_copy_move` (lines 256-275):
`is_manipulated = detection_score > 0.2`. -/
def detect_copy_move (frames : List CMFrame) (min_matches : ℕ := 10)
    (similarity_threshold : ℚ := 8/10) : CMResult :=
  { analyzed := frames.length
    detection_score := cmDetectionScore frames min_matches similarity_threshold
    is_manipulated :=
      decide (cmDetectionScore frames min_matches similarity_threshold > 2/10) }

/-! ## Optical-flow detector aggregation (`optical_flow_analysis.py`)

Per frame pair the pipeline records `mean_magnitude` (from
`compute_optical_flow`) and `smoothness` (from
`calculate_flow_smoothness`); `detect_flow_anomalies` flags indices by
z-tests at sensitivity 2.5 and `analyze_optical_flow` (lines 392-409)
combines them into the anomaly score. -/

/-- `calculate_flow_smoothness` (lines 147-161), applied to the mean and
95th percentile of the flow-gradient magnitude field. -/
def calculate_flow_smoothness (mean_grad p95_grad : ℚ) : ℚ :=
  if 0 < p95_grad then 1 - clipQ (mean_grad / p95_grad) 0 1 else 1

/-- One entry of `flow_stats`: the fields `detect_flow_anomalies` reads. -/
structure FlowStat where
  mean_magnitude : ℚ
  smoothness : ℚ
deriving DecidableEq, Repr

/-- `detect_flow_anomalies` (lines 164-209) at the default sensitivity 2.5
(`sens² = 25/4`): magnitude outliers beyond `mean ± 2.5·std` united with
smoothness values below `mean - 2.5·std` (the latter only when some
smoothness is positive).  `np.where` indices united and sorted equal the
filter of `List.range`. -/
def detect_flow_anomalies (stats : List FlowStat) : List ℕ :=
  if stats.length < 10 then []
  else
    let mags := stats.map (·.mean_magnitude)
    let smooth := stats.map (·.smoothness)
    let mu := meanQ mags
    let s2v := (25/4) * varQ mags
    let smoothOn := decide (0 < smooth.length) && decide (0 < npMax smooth)
    let smu := meanQ smooth
    let ss2v := (25/4) * varQ smooth
    (List.range stats.length).filter (fun i =>
      (zHighTest (mags.getD i 0) mu s2v || zLowTest (mags.getD i 0) mu s2v) ||
      (smoothOn && zLowTest (smooth.getD i 0) smu ss2v))

/-- Raw per-pair observation feeding the flow pipeline: the mean flow
magnitude of the pair, and the mean and 95th percentile of the
flow-gradient magnitude (the inputs of `calculate_flow_smoothness`). -/
structure FlowObs where
  mean_magnitude : ℚ
  mean_gradient : ℚ
  p95_gradient : ℚ
deriving DecidableEq, Repr

/-- Result record of `analyze_optical_flow` (fields the claims mention). -/
structure FlowResult where
  analyzed : ℕ
  avg_flow_smoothness : ℚ
  anomaly_score : ℚ
  is_manipulated : Bool
  num_anomalies : ℕ
deriving DecidableEq, Repr

/-- The `flow_stats` list built by the sampling loop (lines 351-367):
per-pair mean magnitude paired with the computed smoothness. -/
def flowStatsOf (obs : List FlowObs) : List FlowStat :=
  obs.map (fun o =>
    { mean_magnitude := o.mean_magnitude
      smoothness := calculate_flow_smoothness o.mean_gradient o.p95_gradient })

/-- `anomaly_ratio` of `analyze_optical_flow` (line 402). -/
def flowAnomalyRatio (obs : List FlowObs) : ℚ :=
  if (flowStatsOf obs).isEmpty then 0
  else ((detect_flow_anomalies (flowStatsOf obs)).length : ℚ) /
    (flowStatsOf obs).length

/-- `anomaly_score` of `analyze_optical_flow` (line 406):
`anomaly_ratio·0.5 + (1 - avg_smoothness)·0.5`. -/
def flowAnomalyScore (obs : List FlowObs) : ℚ :=
  flowAnomalyRatio obs * (1/2) +
    (1 - meanQ ((flowStatsOf obs).map (·.smoothness))) * (1/2)

/-- Score aggregation of `analyze_optical_flow` (lines 390-409):
`is_manipulated = anomaly_score > 0.35`. -/
def analyze_optical_flow (obs : List FlowObs) : FlowResult :=
  { analyzed := (flowStatsOf obs).length
    avg_flow_smoothness := meanQ ((flowStatsOf obs).map (·.smoothness))
    anomaly_score := flowAnomalyScore obs
    is_manipulated := decide (flowAnomalyScore obs > 35/100)
    num_anomalies := (detect_flow_anomalies (flowStatsOf obs)).length }

/-! ## Temporal-consistency detector aggregation (`temporal_inconsistency.py`) -/

/-- One entry of `metrics`: the fields `detect_anomalies` reads. -/
structure TempObs where
  ssim : ℚ
  psnr : ℚ
deriving DecidableEq, Repr

/-- `detect_anomalies` (lines 127-166) at the default sensitivity 2.0
(`sens² = 4`): SSIM values below `mean - 2·std` united with PSNR values
below `mean - 2·std`, as sorted indices. -/
def detect_anomalies (metrics : List TempObs) : List ℕ :=
  if metrics.length < 10 then []
  else
    let ssims := metrics.map (·.ssim)
    let psnrs := metrics.map (·.psnr)
    let smu := meanQ ssims
    let ss2v := 4 * varQ ssims
    let pmu := meanQ psnrs
    let ps2v := 4 * varQ psnrs
    (List.range metrics.length).filter (fun i =>
      zLowTest (ssims.getD i 0) smu ss2v || zLowTest (psnrs.getD i 0) pmu ps2v)

/-- Result record of `detect_temporal_inconsistency` (fields the claims
mention). -/
structure TempResult where
  analyzed : ℕ
  avg_ssim : ℚ
  anomaly_score : ℚ
  is_manipulated : Bool
deriving DecidableEq, Repr

/-- `anomaly_ratio` of `detect_temporal_inconsistency` (line 398). -/
def tempAnomalyRatio (metrics : List TempObs) : ℚ :=
  if metrics.isEmpty then 0
  else ((detect_anomalies metrics).length : ℚ) / metrics.length

/-- `anomaly_score` of `detect_temporal_inconsistency` (line 400):
`anomaly_ratio·0.6 + (1 - avg_ssim)·0.4`. -/
def tempAnomalyScore (metrics : List TempObs) : ℚ :=
  tempAnomalyRatio metrics * (6/10) +
    (1 - meanQ (metrics.map (·.ssim))) * (4/10)

/-- Score aggregation of `detect_temporal_inconsistency` (lines 386-403):
`is_manipulated = anomaly_score > 0.3`. -/
def detect_temporal_inconsistency (metrics : List TempObs) : TempResult :=
  { analyzed := metrics.length
    avg_ssim := meanQ (metrics.map (·.ssim))
    anomaly_score := tempAnomalyScore metrics
    is_manipulated := decide (tempAnomalyScore metrics > 3/10) }

/-! ## Frequency-domain detector (`video_frequency_analysis.py`)

Per sampled frame the pipeline computes `high_freq_ratio`,
`spectral_centroid`, `spectral_flatness` and `has_periodic_artifacts`
(from the FFT magnitude spectrum); `analyze_frequency_domain`
(lines 502-545) aggregates them.  The coefficient of variation in
`calculate_frequency_consistency` divides `np.std` of the high-frequency
ratios by their mean; that standard deviation is irrational in general and
enters by value, so it is an explicit argument `σ` here (theorems assume
only `0 ≤ σ`). -/

/-- Per-frame statistics entering the aggregation. -/
structure FreqFrameStats where
  high_freq_ratio : ℚ
  spectral_centroid : ℚ
  spectral_flatness : ℚ
  has_periodic_artifacts : Bool
deriving DecidableEq, Repr

/-- `calculate_frequency_consistency` (lines 252-283): `0` for fewer than 2
frames, else `1 / (1 + cv)` with `cv = σ / mean` when the mean is positive,
else `0`. -/
def calculate_frequency_consistency (ratios : List ℚ) (σ : ℚ) : ℚ :=
  if ratios.length < 2 then 0
  else if 0 < meanQ ratios then 1 / (1 + σ / meanQ ratios) else 0

/-- Result record of `analyze_frequency_domain` (fields the claims
mention). -/
structure FreqResult where
  analyzed : ℕ
  avg_high_freq_ratio : ℚ
  artifact_ratio : ℚ
  gan_fingerprint_detected : Bool
  authenticity_score : ℚ
  anomaly_score : ℚ
  is_manipulated : Bool
deriving DecidableEq, Repr

/-- `artifact_ratio` of `analyze_frequency_domain` (lines 513-514). -/
def freqArtifactRatio (stats : List FreqFrameStats) : ℚ :=
  if stats.isEmpty then 0
  else (stats.countP (·.has_periodic_artifacts) : ℚ) / stats.length

/-- `authenticity_score` of `analyze_frequency_domain` (lines 526-539):
weighted sum of the five clipped component scores. -/
def freqAuthenticityScore (stats : List FreqFrameStats) (σ : ℚ) : ℚ :=
  clipQ (meanQ (stats.map (·.high_freq_ratio)) / (2/10)) 0 1 * (3/10) +
  clipQ (meanQ (stats.map (·.spectral_centroid)) / (4/10)) 0 1 * (2/10) +
  clipQ (meanQ (stats.map (·.spectral_flatness)) / (2/10)) 0 1 * (2/10) +
  (1 - freqArtifactRatio stats) * (15/100) +
  calculate_frequency_consistency (stats.map (·.high_freq_ratio)) σ * (15/100)

/-- Score aggregation of `analyze_frequency_domain` (lines 502-545):
`anomaly_score = 1 - authenticity`, verdict threshold `0.5`,
`gan_fingerprint_detected = artifact_ratio > 0.3`. -/
def freqAggregate (stats : List FreqFrameStats) (σ : ℚ) : FreqResult :=
  { analyzed := stats.length
    avg_high_freq_ratio := meanQ (stats.map (·.high_freq_ratio))
    artifact_ratio := freqArtifactRatio stats
    gan_fingerprint_detected := decide (freqArtifactRatio stats > 3/10)
    authenticity_score := freqAuthenticityScore stats σ
    anomaly_score := 1 - freqAuthenticityScore stats σ
    is_manipulated := decide ((1 - freqAuthenticityScore stats σ) > 1/2) }

/-- A decoded grayscale frame (pixel rows). -/
abbrev PixelFrame := List (List ℕ)

/-- The external files the analyzer writes (the only world state it
touches: it creates visualization and plot files, and never reads any). -/
structure World where
  files : List String
deriving DecidableEq, Repr

/-- One iteration of the frame loop (lines 464-498): analyze the frame,
append its statistics, and write a spectrum visualization every fifth
processed frame. -/
def freqStep (kern : PixelFrame → FreqFrameStats)
    (acc : List FreqFrameStats × World) (f : PixelFrame) :
    List FreqFrameStats × World :=
  (acc.1 ++ [kern f],
   if (acc.1 ++ [kern f]).length % 5 = 0 then
     { files := acc.2.files ++
         ["freq_" ++ toString (acc.1 ++ [kern f]).length ++ ".png"] }
   else acc.2)

/-- The full `analyze_frequency_domain` pass over decoded frames, with its
file-system effects made explicit.  The per-frame numeric kernel
(`compute_frequency_spectrum` + `analyze_frequency_bands` +
`detect_periodic_artifacts`, lines 83-249: FFT magnitudes and radial-band
statistics) is a parameter `kern` — it is deterministic library arithmetic
whose exact values involve irrational FFT twiddle factors — and likewise
`stdFn` stands for `np.std`.  The final plots are written at the end
(lines 549-561). -/
def analyze_frequency_domain (kern : PixelFrame → FreqFrameStats)
    (stdFn : List ℚ → ℚ) (frames : List PixelFrame) (w : World) :
    FreqResult × World :=
  let folded := frames.foldl (freqStep kern) ([], w)
  (freqAggregate folded.1 (stdFn (folded.1.map (·.high_freq_ratio))),
   { files := folded.2.files ++
      ["frequency_analysis_plot.png", "frequency_spectrum.png",
       "frequency_heatmap.png"] })

theorem freqFold_stats_const (kern : PixelFrame → FreqFrameStats)
    (frames : List PixelFrame) :
    ∀ (s : List FreqFrameStats) (w w' : World),
      (frames.foldl (freqStep kern) (s, w)).1 =
        (frames.foldl (freqStep kern) (s, w')).1 := by
  induction frames with
  | nil => intro s w w'; rfl
  | cons f fs ih =>
      intro s w w'
      simp only [List.foldl_cons, freqStep]
      exact ih _ _ _

/-! ## Noise-pattern detector aggregation (`video_noise_pattern.py`) -/

/-- Per-frame noise statistics entering the aggregation
(`analyze_noise_statistics` / `analyze_noise_frequency`). -/
structure NoiseFrameStats where
  entropy : ℚ
  kurtosis : ℚ
  is_gaussian : Bool
  high_freq_ratio : ℚ
deriving DecidableEq, Repr

/-- `calculate_temporal_consistency` (lines 180-217), given the list of
Pearson correlations between consecutive residuals (pairs whose standard
deviations are below `1e-8` contribute no correlation; fewer than two
frames or no computable correlation gives `0`): the rescaled average
`(mean + 1) / 2`. -/
def calculate_temporal_consistency (correlations : List ℚ) : ℚ :=
  if correlations.isEmpty then 0 else (meanQ correlations + 1) / 2

/-- Result record of `analyze_noise_pattern` (fields the claims mention). -/
structure NoiseResult where
  analyzed : ℕ
  temporal_consistency : ℚ
  authenticity_score : ℚ
  anomaly_score : ℚ
  is_manipulated : Bool
deriving DecidableEq, Repr

/-- `authenticity_score` of `analyze_noise_pattern` (lines 477-491):
weighted sum of consistency, Gaussianity ratio, clipped entropy, clipped
kurtosis distance and clipped high-frequency ratio. -/
def noiseAuthenticityScore (stats : List NoiseFrameStats)
    (correlations : List ℚ) : ℚ :=
  calculate_temporal_consistency correlations * (3/10) +
  meanQ (stats.map (fun s => if s.is_gaussian then (1 : ℚ) else 0)) * (2/10) +
  clipQ (meanQ (stats.map (·.entropy)) / 5) 0 1 * (2/10) +
  (1 - clipQ (|meanQ (stats.map (·.kurtosis))| / 10) 0 1) * (15/100) +
  clipQ (meanQ (stats.map (·.high_freq_ratio)) * 3) 0 1 * (15/100)

/-- Score aggregation of `analyze_noise_pattern` (lines 455-497):
`anomaly_score = 1 - authenticity`, verdict threshold `0.5`. -/
def analyze_noise_pattern (stats : List NoiseFrameStats)
    (correlations : List ℚ) : NoiseResult :=
  { analyzed := stats.length
    temporal_consistency := calculate_temporal_consistency correlations
    authenticity_score := noiseAuthenticityScore stats correlations
    anomaly_score := 1 - noiseAuthenticityScore stats correlations
    is_manipulated :=
      decide ((1 - noiseAuthenticityScore stats correlations) > 1/2) }

/-! ## The Kafka worker (`py/server/kafka_worker.py`)

The worker loop consumes task messages, routes them by `type`, tracks
progress in Redis, publishes one terminal result per processed message and
maintains the dedup ledger.  External state (Redis hashes, published Kafka
messages, the dedup keys) is an explicit `Store`; external behaviours
(MinIO availability, `os.path.exists`, downloads, `time.time()`, and the
four handlers whose bodies are outside the modelled scope) live in `Env`.
The `VIDEO_TRADITIONAL_NOISE` handler `process_video_traditional` is
modelled concretely (lines 155-193). -/

/-- A consumed task message (the fields `worker_loop` and
`process_video_traditional` read).  Absent JSON keys are `none`. -/
structure Task where
  ttype : Option String
  taskId : Option String
  fileMd5 : Option String
  localPath : Option String
  url : Option String
  minioUrl : Option String
deriving DecidableEq, Repr

/-- Python truthiness of `task.get(...)`: `None` and `""` are falsy. -/
def isTruthy : Option String → Bool
  | none => false
  | some s => decide (s ≠ "")

/-- Python `a or b` on optional strings: `a` when truthy, else `b` as-is. -/
def pyOrStr (a b : Option String) : Option String :=
  if isTruthy a then a else b

/-- Python string interpolation of a possibly-`None` value
(`f"...{None}"` renders as `"None"`). -/
def pyShowOpt : Option String → String
  | none => "None"
  | some s => s

/-- The worker-level task id, line 318:
`task.get('taskId') or task.get('fileMd5')`. -/
def workerTaskId (t : Task) : Option String := pyOrStr t.taskId t.fileMd5

/-- Redis key of a progress record. -/
def progressKey (tid : String) : String := "analysis:progress:" ++ tid

/-- Redis key of a dedup marker. -/
def processedKey (tid : String) : String := "analysis:processed:" ++ tid

/-- One `update_progress` write (the timestamp is not modelled). -/
structure ProgressWrite where
  key : String
  progress : ℕ
  message : String
deriving DecidableEq, Repr

/-- A handler's result dictionary.  `payload` stands for the opaque
analyzer output under the `result` key (`status` for `VIDEO_AI`); keys a
handler does not set are modelled as `""` / `[]`. -/
structure HandlerResult where
  taskId : String
  fileMd5 : String
  rtype : String
  method : String
  artifacts : List (String × String)
  payload : String
deriving DecidableEq, Repr

/-- A handler invocation: the progress writes it makes, and either its
result dictionary or the message of the exception it raises. -/
structure HandlerRun where
  writes : List ProgressWrite
  outcome : Except String HandlerResult
deriving Repr

/-- A message published to the result topic.  The producer's
`key_serializer` sends `None` for a falsy key. -/
structure OutMsg where
  key : Option String
  success : Bool
  data : Option HandlerResult
  error : Option String
  taskEcho : Option Task
deriving DecidableEq, Repr

/-- The externally visible effects: dedup-marker keys, progress writes (in
order), published result messages (in order). -/
structure Store where
  dedupKeys : List String
  progressLog : List ProgressWrite
  published : List OutMsg
deriving DecidableEq, Repr

/-- External behaviours and configuration of the worker process. -/
structure Env where
  minioSet : Bool
  minioSecure : Bool
  minioEndpoint : String
  minioBucket : String
  uploadOk : String → Bool
  fileExists : String → Bool
  download : String → Except String String
  clock : ℕ
  noiseOutcome : Except String String
  imageAiRun : Task → HandlerRun
  flowRun : Task → HandlerRun
  freqRun : Task → HandlerRun
  temporalRun : Task → HandlerRun
  copymoveRun : Task → HandlerRun

/-- The handler-level task id, e.g. line 156:
`task.get('taskId') or task.get('fileMd5') or str(int(time.time()))`. -/
def handlerTaskId (env : Env) (t : Task) : String :=
  (pyOrStr (pyOrStr t.taskId t.fileMd5) (some (toString env.clock))).getD ""

/-- `os.path.basename`: everything after the last `/`. -/
def basename (p : String) : String :=
  ((p.toList.reverse.takeWhile (· ≠ '/')).reverse).asString

/-- Python `s.strip('/')`. -/
def stripSlashes (s : String) : String :=
  (((s.toList.dropWhile (· = '/')).reverse.dropWhile (· = '/')).reverse).asString

/-- Python `str.replace` over character lists (non-overlapping, scanning
resumes after each replacement), fuelled by the input length so the
recursion is structural. -/
def replaceFuel (pat rep : List Char) : ℕ → List Char → List Char
  | 0, s => s
  | _ + 1, [] => []
  | fuel + 1, c :: cs =>
      if pat ≠ [] ∧ pat.isPrefixOf (c :: cs) then
        rep ++ replaceFuel pat rep fuel ((c :: cs).drop pat.length)
      else c :: replaceFuel pat rep fuel cs

/-- Python `s.replace(pat, rep)`. -/
def pyReplace (s pat rep : String) : String :=
  (replaceFuel pat.toList rep.toList s.length s.toList).asString

/-- `MINIO_ENDPOINT.strip('/').replace('http://','').replace('https://','')`. -/
def stripScheme (s : String) : String :=
  pyReplace (pyReplace s "http://" "") "https://" ""

/-- The public URL built for an uploaded artifact (line 146). -/
def uploadUrl (env : Env) (tid path : String) : String :=
  (if env.minioSecure then "https" else "http") ++ "://" ++
    stripScheme (stripSlashes env.minioEndpoint) ++ "/" ++ env.minioBucket ++
    "/artifacts/" ++ tid ++ "/" ++ basename path

/-- The body of the upload loop of `_upload_artifacts` (lines 140-151):
skip missing files silently, catch a failed `fput_object` (the artifact is
simply absent from the returned map), and on success record the URL and
the progress write `80 + ⌊done·15/total⌋`. -/
def uploadStep (env : Env) (tid : String) (total : ℕ)
    (acc : List ProgressWrite × List (String × String) × ℕ)
    (kp : String × String) :
    List ProgressWrite × List (String × String) × ℕ :=
  if env.fileExists kp.2 then
    if env.uploadOk kp.2 then
      (acc.1 ++ [⟨progressKey tid, 80 + (acc.2.2 + 1) * 15 / total,
          "Uploading artifacts (" ++ toString (acc.2.2 + 1) ++ "/" ++
            toString total ++ ")"⟩],
       acc.2.1 ++ [(kp.1, uploadUrl env tid kp.2)], acc.2.2 + 1)
    else acc
  else acc

/-- `_upload_artifacts` (lines 135-152): with no MinIO client the result
is the empty map; otherwise the upload loop runs over all artifacts.
Returns the progress writes made and the map of successfully uploaded
URLs. -/
def upload_artifacts (env : Env) (tid : String)
    (artifacts : List (String × String)) :
    List ProgressWrite × List (String × String) :=
  if env.minioSet then
    ((artifacts.foldl (uploadStep env tid artifacts.length) ([], [], 0)).1,
     (artifacts.foldl (uploadStep env tid artifacts.length) ([], [], 0)).2.1)
  else ([], [])

/-- `_ensure_video_path` (lines 120-132): use the local path when it
exists; otherwise download from `url or minioUrl`; raise when neither
resolves.  A download failure writes progress 100 before raising. -/
def ensure_video_path (env : Env) (t : Task) (tid : String) :
    List ProgressWrite × Except String String :=
  let vp := t.localPath
  let u := pyOrStr t.url t.minioUrl
  let vpMissing := !(isTruthy vp) || !(env.fileExists (vp.getD ""))
  if vpMissing && isTruthy u then
    let w₁ : ProgressWrite := ⟨progressKey tid, 10, "Downloading video"⟩
    match env.download (u.getD "") with
    | .ok p =>
        if env.fileExists p then ([w₁], .ok p)
        else ([w₁], .error "localPath or downloadable url is required")
    | .error e =>
        ([w₁, ⟨progressKey tid, 100, "Failed downloading video: " ++ e⟩],
         .error ("Failed to download video from url: " ++ e))
  else
    if isTruthy vp && env.fileExists (vp.getD "") then ([], .ok (vp.getD ""))
    else ([], .error "localPath or downloadable url is required")

/-- The three artifact files `process_video_traditional` registers
(lines 178-182), rooted at `tmp_py/<task_id>`. -/
def noiseArtifacts (tid : String) : List (String × String) :=
  [("temporal_plot", "tmp_py/" ++ tid ++ "/noise_temporal_plot.png"),
   ("distribution_plot", "tmp_py/" ++ tid ++ "/noise_distribution_plot.png"),
   ("visualization", "tmp_py/" ++ tid ++ "/noise_visualization.png")]

/-- `process_video_traditional` (lines 155-193).  The call to
`analyze_noise_pattern` is represented by `env.noiseOutcome` (its returned
dictionary as an opaque payload, or the exception it raises).  The result's
artifacts map is `uploaded or artifacts`: the uploaded map when it is
nonempty, else the local paths. -/
def process_video_traditional (env : Env) (t : Task) : HandlerRun :=
  let tid := handlerTaskId env t
  let md5 := (pyOrStr t.fileMd5 (some tid)).getD tid
  let w₀ : ProgressWrite := ⟨progressKey tid, 5, "Task received"⟩
  match ensure_video_path env t tid with
  | (ws, .error e) => { writes := w₀ :: ws, outcome := .error e }
  | (ws, .ok _vp) =>
    let w₁ : ProgressWrite := ⟨progressKey tid, 20, "Decoding & sampling frames"⟩
    match env.noiseOutcome with
    | .error e => { writes := w₀ :: ws ++ [w₁], outcome := .error e }
    | .ok payload =>
      let w₂ : ProgressWrite :=
        ⟨progressKey tid, 80, "Analyzing noise residuals completed"⟩
      let arts := noiseArtifacts tid
      let up := upload_artifacts env tid arts
      let w₃ : ProgressWrite := ⟨progressKey tid, 97, "Finalizing results"⟩
      { writes := w₀ :: ws ++ [w₁, w₂] ++ up.1 ++ [w₃]
        outcome := .ok
          { taskId := tid
            fileMd5 := md5
            rtype := "VIDEO_TRADITIONAL_NOISE"
            method := "NOISE"
            artifacts := if up.2.isEmpty then arts else up.2
            payload := payload } }

/-- The six task-type strings corresponding to the spec's six enumerated
task types (IMAGE_CLASSIFY, NOISE, OPTICAL_FLOW, FREQUENCY, TEMPORAL,
COPY_MOVE). -/
def sixTaskTypes : List String :=
  ["IMAGE_AI", "VIDEO_TRADITIONAL_NOISE", "VIDEO_TRADITIONAL_FLOW",
   "VIDEO_TRADITIONAL_FREQ", "VIDEO_TRADITIONAL_TEMPORAL",
   "VIDEO_TRADITIONAL_COPYMOVE"]

/-- All strings `worker_loop` dispatches without raising: the six above
plus the `VIDEO_AI` placeholder. -/
def handledTaskTypes : List String := sixTaskTypes ++ ["VIDEO_AI"]

/-- The `if/elif` dispatch inside `worker_loop` (lines 326-344): route the
task to its handler, run the `VIDEO_AI` placeholder inline, or raise
`ValueError(f'Unknown task type: {task_type}')`. -/
def runTask (env : Env) (t : Task) : HandlerRun :=
  match t.ttype with
  | some "IMAGE_AI" => env.imageAiRun t
  | some "VIDEO_TRADITIONAL_NOISE" => process_video_traditional env t
  | some "VIDEO_TRADITIONAL_FLOW" => env.flowRun t
  | some "VIDEO_TRADITIONAL_FREQ" => env.freqRun t
  | some "VIDEO_TRADITIONAL_TEMPORAL" => env.temporalRun t
  | some "VIDEO_TRADITIONAL_COPYMOVE" => env.copymoveRun t
  | some "VIDEO_AI" =>
      { writes := [⟨progressKey (pyShowOpt (workerTaskId t)), 20,
                    "Video AI queued"⟩]
        outcome := .ok
          { taskId := pyShowOpt (workerTaskId t)
            fileMd5 := ""
            rtype := "VIDEO_AI"
            method := ""
            artifacts := []
            payload := "NOT_IMPLEMENTED" } }
  | other =>
      { writes := []
        outcome := .error ("Unknown task type: " ++ pyShowOpt other) }

/-- One iteration of `worker_loop` (lines 315-356) on one consumed
message: drop it when its id already carries a dedup marker; otherwise run
the handler, publish a success result, set progress to 100 and write the
dedup marker — or catch the exception, publish a failure result and set
progress to 100 (no marker). -/
def stepWorker (env : Env) (st : Store) (t : Task) : Store :=
  let tid := workerTaskId t
  if isTruthy tid && st.dedupKeys.contains (processedKey (pyShowOpt tid)) then
    st
  else
    let hr := runTask env t
    let st₁ : Store := { st with progressLog := st.progressLog ++ hr.writes }
    match hr.outcome with
    | .ok data =>
        let st₂ : Store := { st₁ with published := st₁.published ++
          [{ key := if isTruthy tid then tid else none
             success := true, data := some data, error := none
             taskEcho := none }] }
        let st₃ : Store := { st₂ with progressLog := st₂.progressLog ++
          [⟨progressKey (pyShowOpt tid), 100, "Completed"⟩] }
        if isTruthy tid then
          { st₃ with dedupKeys := st₃.dedupKeys ++ [processedKey (pyShowOpt tid)] }
        else st₃
    | .error e =>
        let st₂ : Store := { st₁ with published := st₁.published ++
          [{ key := if isTruthy tid then tid else none
             success := false, data := none, error := some e
             taskEcho := some t }] }
        { st₂ with progressLog := st₂.progressLog ++
          [⟨progressKey (pyShowOpt tid), 100, "Failed: " ++ e⟩] }

/-- `worker_loop` over a finite stream of consumed messages. -/
def worker_loop (env : Env) (st : Store) (msgs : List Task) : Store :=
  msgs.foldl (stepWorker env) st

/-! ## Worker lemmas -/

theorem uploadFold_writes (env : Env) (tid : String) (total : ℕ) :
    ∀ (arts : List (String × String))
      (acc : List ProgressWrite × List (String × String) × ℕ),
      (∀ w ∈ acc.1, w.key = progressKey tid ∧ w.progress ≤ 95) →
      acc.2.2 + arts.length ≤ total →
      ∀ w ∈ (arts.foldl (uploadStep env tid total) acc).1,
        w.key = progressKey tid ∧ w.progress ≤ 95 := by
  intro arts
  induction arts with
  | nil => intro acc hw _ w hwmem; exact hw w hwmem
  | cons a as ih =>
      intro acc hw hcnt w hwmem
      rw [List.foldl_cons] at hwmem
      refine ih (uploadStep env tid total acc a) ?_ ?_ w hwmem
      · intro w' hw'
        unfold uploadStep at hw'
        split at hw'
        · split at hw'
          · rcases List.mem_append.mp hw' with h | h
            · exact hw w' h
            · have hdone : acc.2.2 + 1 ≤ total := by
                have := hcnt
                simp only [List.length_cons] at this
                omega
              have htpos : 0 < total := by omega
              have hdiv : (acc.2.2 + 1) * 15 / total ≤ 15 := by
                calc (acc.2.2 + 1) * 15 / total ≤ total * 15 / total :=
                      Nat.div_le_div_right (Nat.mul_le_mul_right _ hdone)
                  _ = 15 := by
                      rw [Nat.mul_comm]
                      exact Nat.mul_div_cancel _ htpos
              simp only [List.mem_singleton] at h
              subst h
              refine ⟨rfl, ?_⟩
              show 80 + (acc.2.2 + 1) * 15 / total ≤ 95
              omega
          · exact hw w' hw'
        · exact hw w' hw'
      · simp only [List.length_cons] at hcnt
        unfold uploadStep
        split
        · split
          · show acc.2.2 + 1 + as.length ≤ total
            omega
          · show acc.2.2 + as.length ≤ total
            omega
        · show acc.2.2 + as.length ≤ total
          omega

theorem upload_artifacts_writes (env : Env) (tid : String)
    (arts : List (String × String)) :
    ∀ w ∈ (upload_artifacts env tid arts).1,
      w.key = progressKey tid ∧ w.progress ≤ 95 := by
  unfold upload_artifacts
  split
  · exact uploadFold_writes env tid arts.length arts ([], [], 0)
      (by simp) (by simp)
  · simp

/-- Evaluation of `process_video_traditional` on the success path: the
local video path exists, so no download happens, and the analyzer
returns. -/
theorem process_video_traditional_ok (env : Env) (t : Task) {p payload : String}
    (hlp : t.localPath = some p) (hp : p ≠ "")
    (hex : env.fileExists p = true)
    (hno : env.noiseOutcome = .ok payload) :
    process_video_traditional env t =
      { writes :=
          ⟨progressKey (handlerTaskId env t), 5, "Task received"⟩ ::
          ([⟨progressKey (handlerTaskId env t), 20, "Decoding & sampling frames"⟩,
            ⟨progressKey (handlerTaskId env t), 80, "Analyzing noise residuals completed"⟩] ++
            (upload_artifacts env (handlerTaskId env t)
              (noiseArtifacts (handlerTaskId env t))).1 ++
            [⟨progressKey (handlerTaskId env t), 97, "Finalizing results"⟩])
        outcome := .ok
          { taskId := handlerTaskId env t
            fileMd5 := (pyOrStr t.fileMd5 (some (handlerTaskId env t))).getD
              (handlerTaskId env t)
            rtype := "VIDEO_TRADITIONAL_NOISE"
            method := "NOISE"
            artifacts :=
              if (upload_artifacts env (handlerTaskId env t)
                    (noiseArtifacts (handlerTaskId env t))).2.isEmpty
              then noiseArtifacts (handlerTaskId env t)
              else (upload_artifacts env (handlerTaskId env t)
                    (noiseArtifacts (handlerTaskId env t))).2
            payload := payload } } := by
  have hens : ensure_video_path env t (handlerTaskId env t) = ([], .ok p) := by
    unfold ensure_video_path
    rw [hlp]
    simp [isTruthy, hp, hex]
  simp only [process_video_traditional]
  rw [hens, hno]
  rfl

/-- The writes of the success path are all keyed by the handler task id
and never reach progress 100. -/
theorem process_video_traditional_ok_writes (env : Env) (t : Task)
    {p payload : String}
    (hlp : t.localPath = some p) (hp : p ≠ "")
    (hex : env.fileExists p = true)
    (hno : env.noiseOutcome = .ok payload) :
    ∀ w ∈ (process_video_traditional env t).writes,
      w.key = progressKey (handlerTaskId env t) ∧ w.progress ≤ 97 := by
  rw [process_video_traditional_ok env t hlp hp hex hno]
  intro w hw
  have hw' : w = ⟨progressKey (handlerTaskId env t), 5, "Task received"⟩ ∨
      w = ⟨progressKey (handlerTaskId env t), 20, "Decoding & sampling frames"⟩ ∨
      w = ⟨progressKey (handlerTaskId env t), 80,
            "Analyzing noise residuals completed"⟩ ∨
      w ∈ (upload_artifacts env (handlerTaskId env t)
            (noiseArtifacts (handlerTaskId env t))).1 ∨
      w = ⟨progressKey (handlerTaskId env t), 97, "Finalizing results"⟩ := by
    simpa [List.mem_cons, List.mem_append, or_assoc] using hw
  rcases hw' with rfl | rfl | rfl | hup | rfl
  · exact ⟨rfl, by show (5:ℕ) ≤ 97
                   omega⟩
  · exact ⟨rfl, by show (20:ℕ) ≤ 97
                   omega⟩
  · exact ⟨rfl, by show (80:ℕ) ≤ 97
                   omega⟩
  · have := upload_artifacts_writes env (handlerTaskId env t)
      (noiseArtifacts (handlerTaskId env t)) w hup
    exact ⟨this.1, by omega⟩
  · exact ⟨rfl, by show (97:ℕ) ≤ 97
                   omega⟩

/-- `stepWorker` on a message that is dropped by the dedup ledger. -/
theorem stepWorker_dropped (env : Env) (st : Store) (t : Task)
    (h1 : isTruthy (workerTaskId t) = true)
    (h2 : st.dedupKeys.contains
      (processedKey (pyShowOpt (workerTaskId t))) = true) :
    stepWorker env st t = st := by
  simp only [stepWorker, h1, h2, Bool.and_self, if_true]

/-- `stepWorker` on a processed message with a truthy task id whose
handler succeeds: publish the success result, set progress to 100 and
write the dedup marker. -/
theorem stepWorker_ok_truthy (env : Env) (st : Store) (t : Task)
    {d : HandlerResult}
    (h1 : isTruthy (workerTaskId t) = true)
    (h2 : st.dedupKeys.contains
      (processedKey (pyShowOpt (workerTaskId t))) = false)
    (hout : (runTask env t).outcome = .ok d) :
    stepWorker env st t =
      { dedupKeys := st.dedupKeys ++ [processedKey (pyShowOpt (workerTaskId t))]
        progressLog := st.progressLog ++ ((runTask env t).writes ++
          [⟨progressKey (pyShowOpt (workerTaskId t)), 100, "Completed"⟩])
        published := st.published ++
          [{ key := workerTaskId t
             success := true, data := some d, error := none
             taskEcho := none }] } := by
  simp only [stepWorker, h1, h2, hout, Bool.true_and, Bool.false_eq_true,
    if_false, if_true, List.append_assoc]

/-- `stepWorker` on a processed message with no usable task id whose
handler succeeds: publish the success result keyed by `None`, set progress
to 100, and write no dedup marker. -/
theorem stepWorker_ok_falsy (env : Env) (st : Store) (t : Task)
    {d : HandlerResult}
    (h1 : isTruthy (workerTaskId t) = false)
    (hout : (runTask env t).outcome = .ok d) :
    stepWorker env st t =
      { dedupKeys := st.dedupKeys
        progressLog := st.progressLog ++ ((runTask env t).writes ++
          [⟨progressKey (pyShowOpt (workerTaskId t)), 100, "Completed"⟩])
        published := st.published ++
          [{ key := none
             success := true, data := some d, error := none
             taskEcho := none }] } := by
  simp only [stepWorker, h1, hout, Bool.false_and, Bool.false_eq_true,
    if_false, List.append_assoc]

/-- `stepWorker` on a processed message whose handler raises: publish the
failure result, set progress to 100, and write no dedup marker. -/
theorem stepWorker_err (env : Env) (st : Store) (t : Task) {e : String}
    (hdrop : (isTruthy (workerTaskId t) &&
      st.dedupKeys.contains (processedKey (pyShowOpt (workerTaskId t)))) = false)
    (hout : (runTask env t).outcome = .error e) :
    stepWorker env st t =
      { dedupKeys := st.dedupKeys
        progressLog := st.progressLog ++ ((runTask env t).writes ++
          [⟨progressKey (pyShowOpt (workerTaskId t)), 100, "Failed: " ++ e⟩])
        published := st.published ++
          [{ key := if isTruthy (workerTaskId t) then workerTaskId t else none
             success := false, data := none, error := some e
             taskEcho := some t }] } := by
  simp only [stepWorker, hdrop, hout, Bool.false_eq_true, if_false,
    List.append_assoc]

/-- Whether `worker_loop` knows the type string. -/
def isHandledType : Option String → Bool
  | some s => handledTaskTypes.contains s
  | none => false

/-- The dispatch on an unhandled type raises
`ValueError(f'Unknown task type: {task_type}')` with no progress write. -/
theorem runTask_unknown (env : Env) (t : Task)
    (h : isHandledType t.ttype = false) :
    runTask env t =
      { writes := []
        outcome := .error ("Unknown task type: " ++ pyShowOpt t.ttype) } := by
  unfold runTask
  split
  · rename_i heq
    rw [heq] at h
    exact absurd h (by decide)
  · rename_i heq
    rw [heq] at h
    exact absurd h (by decide)
  · rename_i heq
    rw [heq] at h
    exact absurd h (by decide)
  · rename_i heq
    rw [heq] at h
    exact absurd h (by decide)
  · rename_i heq
    rw [heq] at h
    exact absurd h (by decide)
  · rename_i heq
    rw [heq] at h
    exact absurd h (by decide)
  · rename_i heq
    rw [heq] at h
    exact absurd h (by decide)
  · rfl

/-! ## Shared arithmetic lemmas -/

theorem natRatio_bounds {k n : ℕ} (hk : k ≤ n) (hn : 0 < n) :
    0 ≤ (k : ℚ) / n ∧ (k : ℚ) / n ≤ 1 := by
  constructor
  · positivity
  · rw [div_le_one (by exact_mod_cast hn)]
    exact_mod_cast hk

/-! ## Claim theorems -/

unseal Rat.add Rat.mul Rat.sub Rat.inv in
/-- C7 (counterexample): the samplers do not implement
`round(i·(total-1)/(count-1))` deduplicated.  The flow sampler at
`total = 100, count = 10` returns `10` at position 1 where the claimed
formula gives `round(99/9) = 11` (the flow sampler spans `[0, total-2]`
with truncation); the keyframe extractor at `total = 100, count = 30`
returns `6` at position 2 where the claimed formula gives
`round(2·99/29) = 7` (truncation, not rounding). -/
theorem frame_sampler_counterexample :
    flowFrameIndices 100 10 ≠ claimedSampleIndices 100 10 ∧
    (flowFrameIndices 100 10).get? 1 = some 10 ∧
    (claimedSampleIndices 100 10).get? 1 = some 11 ∧
    extract_keyframes_indices 100 30 ≠ claimedSampleIndices 100 30 ∧
    (extract_keyframes_indices 100 30).get? 2 = some 6 ∧
    (claimedSampleIndices 100 30).get? 2 = some 7 := by decide

/-- C7 (amended): the flow sampler returns every frame when
`total < count`, and otherwise `count` indices `⌊i·(total-2)/(count-1)⌋`,
not deduplicated; the keyframe extractor always returns `count` indices
`⌊i·(total-1)/(count-1)⌋`.  For `total = 100, count = 10` both samplers
return strictly increasing indices that start at 0, end at or below 99 and
number exactly 10. -/
theorem frame_sampler_amended :
    (List.Pairwise (· < ·) (flowFrameIndices 100 10) ∧
      (flowFrameIndices 100 10).head? = some 0 ∧
      (∀ i ∈ flowFrameIndices 100 10, i ≤ 99) ∧
      (flowFrameIndices 100 10).length = 10) ∧
    (List.Pairwise (· < ·) (extract_keyframes_indices 100 10) ∧
      (extract_keyframes_indices 100 10).head? = some 0 ∧
      (∀ i ∈ extract_keyframes_indices 100 10, i ≤ 99) ∧
      (extract_keyframes_indices 100 10).length = 10) ∧
    (∀ total count : ℕ, total < count →
      flowFrameIndices total count = List.range total) ∧
    (∀ total count : ℕ, 2 ≤ count → count ≤ total →
      (flowFrameIndices total count).length = count ∧
      (extract_keyframes_indices total count).length = count) := by
  refine ⟨by decide, by decide, ?_, ?_⟩
  · intro t c h
    simp [flowFrameIndices, h]
  · intro t c h2 hc
    have hnl : ¬ t < c := not_lt.mpr hc
    have h0 : c ≠ 0 := by omega
    have h1 : c ≠ 1 := by omega
    exact ⟨by simp [flowFrameIndices, hnl, h0, h1],
           by simp [extract_keyframes_indices, h0, h1]⟩

theorem frame_sampler_amended_witness :
    (3 < 5 ∧ flowFrameIndices 3 5 = List.range 3) ∧
    (2 ≤ 10 ∧ 10 ≤ 100 ∧ (flowFrameIndices 100 10).length = 10 ∧
      (extract_keyframes_indices 100 10).length = 10) :=
  ⟨⟨by decide, frame_sampler_amended.2.2.1 3 5 (by decide)⟩,
   ⟨by decide, by decide,
    (frame_sampler_amended.2.2.2 100 10 (by decide) (by decide)).1,
    (frame_sampler_amended.2.2.2 100 10 (by decide) (by decide)).2⟩⟩

unseal Rat.add Rat.mul Rat.sub Rat.inv in
/-- C8 (counterexample): `flow_density` counts pixels with magnitude above
`0.5`, not above `1.0`.  On a field with a single pixel of magnitude `0.7`
the source computes density `1` while the claimed definition gives `0`. -/
theorem flow_density_counterexample :
    flow_density [7/10] = 1 ∧ claimedFlowDensity [7/10] = 0 ∧
    flow_density [7/10] ≠ claimedFlowDensity [7/10] := by decide

/-- C8 (amended): for every nonempty magnitude field, `flow_density` is
the fraction of pixels whose flow magnitude exceeds `0.5` pixels, and it
lies in `[0, 1]`. -/
theorem flow_density_amended (mags : List ℚ) (hne : mags ≠ []) :
    flow_density mags = fractionExceeding (1/2) mags ∧
    0 ≤ flow_density mags ∧ flow_density mags ≤ 1 := by
  have hlen : 0 < mags.length := List.length_pos.mpr hne
  have hb := natRatio_bounds (List.countP_le_length
    (fun m => decide ((1 : ℚ)/2 < m)) (l := mags)) hlen
  exact ⟨rfl, hb.1, hb.2⟩

theorem flow_density_amended_witness :
    ([(7 : ℚ)/10, 3] ≠ ([] : List ℚ)) ∧
    (flow_density [7/10, 3] = fractionExceeding (1/2) [7/10, 3] ∧
      0 ≤ flow_density [7/10, 3] ∧ flow_density [7/10, 3] ≤ 1) :=
  ⟨by simp, flow_density_amended [7/10, 3] (by simp)⟩

/-- Keypoints of the C6 counterexample frame: ten distinct points on a
horizontal segment of length 9 px — every pair is closer than 50 px. -/
def cmKpsX : List (ℚ × ℚ) := (List.range 10).map (fun i => ((i : ℚ), 0))

/-- Self-match lists of the C6 counterexample frame: each descriptor's
best non-self match has distance 1 against a second neighbour at
distance 2, so all ten pass the ratio test `1 < 0.8·2`. -/
def cmMatchesX : List (List MatchRec) :=
  (List.range 10).map (fun i => [⟨i, (i + 1) % 10, 1⟩, ⟨i, i, 2⟩])

unseal Rat.add Rat.mul Rat.sub Rat.inv in
/-- C6 (counterexample): a frame whose ten ratio-passing non-self matches
all join keypoints fewer than 50 px apart is flagged `is_forged = true`
although the spec's qualifying-match count (ratio test, non-self, ≥ 50 px
apart) is `0` — the spatial-separation filter does not enter the
`is_forged` decision. -/
theorem copy_move_frame_counterexample :
    (detect_copy_move_in_frame cmKpsX cmMatchesX 10 (8/10)).1 = true ∧
    claimedQualifyingMatches cmKpsX cmMatchesX (8/10) = 0 ∧
    ¬ (10 ≤ claimedQualifyingMatches cmKpsX cmMatchesX (8/10)) := by decide

/-! ### Score-bound lemmas for the five detectors (C3) -/

theorem calculate_flow_smoothness_bounds (a b : ℚ) :
    0 ≤ calculate_flow_smoothness a b ∧ calculate_flow_smoothness a b ≤ 1 := by
  unfold calculate_flow_smoothness
  split
  · have h := clipQ_bounds (a / b) (by norm_num : (0:ℚ) ≤ 1)
    constructor <;> linarith [h.1, h.2]
  · norm_num

theorem detect_flow_anomalies_length_le (stats : List FlowStat) :
    (detect_flow_anomalies stats).length ≤ stats.length := by
  unfold detect_flow_anomalies
  split
  · simp
  · calc (List.filter _ (List.range stats.length)).length
        ≤ (List.range stats.length).length := List.length_filter_le _ _
      _ = stats.length := List.length_range _

theorem detect_anomalies_length_le (ms : List TempObs) :
    (detect_anomalies ms).length ≤ ms.length := by
  unfold detect_anomalies
  split
  · simp
  · calc (List.filter _ (List.range ms.length)).length
        ≤ (List.range ms.length).length := List.length_filter_le _ _
      _ = ms.length := List.length_range _

theorem flowAnomalyRatio_bounds {obs : List FlowObs} (hne : obs ≠ []) :
    0 ≤ flowAnomalyRatio obs ∧ flowAnomalyRatio obs ≤ 1 := by
  have hs : flowStatsOf obs ≠ [] := by
    simpa [flowStatsOf] using hne
  have hlen : 0 < (flowStatsOf obs).length := List.length_pos.mpr hs
  have hemp : (flowStatsOf obs).isEmpty = false := by
    simpa [List.isEmpty_iff] using hs
  unfold flowAnomalyRatio
  rw [hemp]
  simpa using natRatio_bounds (detect_flow_anomalies_length_le _) hlen

theorem flowAvgSmoothness_bounds {obs : List FlowObs} (hne : obs ≠ []) :
    0 ≤ meanQ ((flowStatsOf obs).map (·.smoothness)) ∧
    meanQ ((flowStatsOf obs).map (·.smoothness)) ≤ 1 := by
  have hs : (flowStatsOf obs).map (·.smoothness) ≠ [] := by
    simpa [flowStatsOf] using hne
  have hmem : ∀ x ∈ (flowStatsOf obs).map (·.smoothness), 0 ≤ x ∧ x ≤ 1 := by
    intro x hx
    rcases List.mem_map.mp hx with ⟨s, hsmem, rfl⟩
    rcases List.mem_map.mp hsmem with ⟨o, _, rfl⟩
    exact calculate_flow_smoothness_bounds _ _
  exact ⟨le_meanQ hs (fun x hx => (hmem x hx).1),
         meanQ_le hs (fun x hx => (hmem x hx).2)⟩

theorem tempAnomalyRatio_bounds {ms : List TempObs} (hne : ms ≠ []) :
    0 ≤ tempAnomalyRatio ms ∧ tempAnomalyRatio ms ≤ 1 := by
  have hlen : 0 < ms.length := List.length_pos.mpr hne
  have hemp : ms.isEmpty = false := by simpa [List.isEmpty_iff] using hne
  unfold tempAnomalyRatio
  rw [hemp]
  simpa using natRatio_bounds (detect_anomalies_length_le _) hlen

theorem calculate_frequency_consistency_bounds (ratios : List ℚ) {σ : ℚ}
    (hσ : 0 ≤ σ) :
    0 ≤ calculate_frequency_consistency ratios σ ∧
    calculate_frequency_consistency ratios σ ≤ 1 := by
  unfold calculate_frequency_consistency
  split
  · norm_num
  · split
    · rename_i hm
      have hcv : 0 ≤ σ / meanQ ratios := div_nonneg hσ hm.le
      constructor
      · positivity
      · rw [div_le_one (by linarith)]
        linarith
    · norm_num

theorem freqArtifactRatio_bounds (stats : List FreqFrameStats) :
    0 ≤ freqArtifactRatio stats ∧ freqArtifactRatio stats ≤ 1 := by
  unfold freqArtifactRatio
  split
  · norm_num
  · rename_i h
    have hne : stats ≠ [] := by
      intro he
      simp [he] at h
    exact natRatio_bounds (List.countP_le_length _)
      (List.length_pos.mpr hne)

theorem freqAuthenticityScore_bounds (stats : List FreqFrameStats) {σ : ℚ}
    (hσ : 0 ≤ σ) :
    0 ≤ freqAuthenticityScore stats σ ∧ freqAuthenticityScore stats σ ≤ 1 := by
  have h01 : (0:ℚ) ≤ 1 := by norm_num
  have h1 := clipQ_bounds (meanQ (stats.map (·.high_freq_ratio)) / (2/10)) h01
  have h2 := clipQ_bounds (meanQ (stats.map (·.spectral_centroid)) / (4/10)) h01
  have h3 := clipQ_bounds (meanQ (stats.map (·.spectral_flatness)) / (2/10)) h01
  have h4 := freqArtifactRatio_bounds stats
  have h5 := calculate_frequency_consistency_bounds
    (stats.map (·.high_freq_ratio)) hσ
  unfold freqAuthenticityScore
  constructor <;>
    nlinarith [h1.1, h1.2, h2.1, h2.2, h3.1, h3.2, h4.1, h4.2, h5.1, h5.2]

theorem calculate_temporal_consistency_bounds {cs : List ℚ}
    (h : ∀ c ∈ cs, -1 ≤ c ∧ c ≤ 1) :
    0 ≤ calculate_temporal_consistency cs ∧
    calculate_temporal_consistency cs ≤ 1 := by
  unfold calculate_temporal_consistency
  split
  · norm_num
  · rename_i hne
    have hcs : cs ≠ [] := by
      intro he
      simp [he] at hne
    have hlo := le_meanQ hcs (fun c hc => (h c hc).1)
    have hhi := meanQ_le hcs (fun c hc => (h c hc).2)
    constructor <;> linarith

theorem noiseGaussianRatio_bounds {stats : List NoiseFrameStats}
    (hne : stats ≠ []) :
    0 ≤ meanQ (stats.map (fun s => if s.is_gaussian then (1:ℚ) else 0)) ∧
    meanQ (stats.map (fun s => if s.is_gaussian then (1:ℚ) else 0)) ≤ 1 := by
  have hs : stats.map (fun s => if s.is_gaussian then (1:ℚ) else 0) ≠ [] := by
    simpa using hne
  have hmem : ∀ x ∈ stats.map (fun s => if s.is_gaussian then (1:ℚ) else 0),
      0 ≤ x ∧ x ≤ 1 := by
    intro x hx
    rcases List.mem_map.mp hx with ⟨s, _, rfl⟩
    split <;> norm_num
  exact ⟨le_meanQ hs (fun x hx => (hmem x hx).1),
         meanQ_le hs (fun x hx => (hmem x hx).2)⟩

theorem noiseAuthenticityScore_bounds {stats : List NoiseFrameStats}
    {cs : List ℚ} (hne : stats ≠ []) (h : ∀ c ∈ cs, -1 ≤ c ∧ c ≤ 1) :
    0 ≤ noiseAuthenticityScore stats cs ∧
    noiseAuthenticityScore stats cs ≤ 1 := by
  have h01 : (0:ℚ) ≤ 1 := by norm_num
  have h1 := calculate_temporal_consistency_bounds h
  have h2 := noiseGaussianRatio_bounds hne
  have h3 := clipQ_bounds (meanQ (stats.map (·.entropy)) / 5) h01
  have h4 := clipQ_bounds (|meanQ (stats.map (·.kurtosis))| / 10) h01
  have h5 := clipQ_bounds (meanQ (stats.map (·.high_freq_ratio)) * 3) h01
  unfold noiseAuthenticityScore
  constructor <;>
    nlinarith [h1.1, h1.2, h2.1, h2.2, h3.1, h3.2, h4.1, h4.2, h5.1, h5.2]

theorem cmDetectionScore_bounds (frames : List CMFrame) (mm : ℕ) (thr : ℚ) :
    0 ≤ cmDetectionScore frames mm thr ∧ cmDetectionScore frames mm thr ≤ 1 := by
  unfold cmDetectionScore
  split
  · norm_num
  · rename_i h
    have hne : frames ≠ [] := by
      intro he
      simp [he] at h
    have hlen : 0 < frames.length := List.length_pos.mpr hne
    have hcnt : (cmFlags frames mm thr).countP id ≤ frames.length := by
      calc (cmFlags frames mm thr).countP id
          ≤ (cmFlags frames mm thr).length := List.countP_le_length _
        _ = frames.length := by simp [cmFlags]
    exact natRatio_bounds hcnt hlen

/-- C3 (counterexample): a temporal metric sequence with strongly negative
SSIM drives the anomaly score above 1.  Fifty frame pairs — nine with
SSIM `-0.99` (PSNR 30), nine with PSNR `0` (SSIM `-0.96`), thirty-two with
SSIM `-0.96` and PSNR 30 — give 18 anomalous indices (ratio 9/25),
`avg_ssim = -0.9654`, and
`anomaly_score = 0.6·(9/25) + 0.4·(1.9654) = 12527/12500 > 1`, outside the
claimed `[0,1]` range (SSIM of real frame pairs can be negative, e.g. for
near-inverted alternating frames, which the `0.4·(1 - avg_ssim)` term does
not clip). -/
def tempCounterObs : List TempObs :=
  List.replicate 9 { ssim := -99/100, psnr := 30 } ++
  List.replicate 9 { ssim := -24/25, psnr := 0 } ++
  List.replicate 32 { ssim := -24/25, psnr := 30 }

set_option maxRecDepth 10000 in
unseal Rat.add Rat.mul Rat.sub Rat.inv in
/-- C3 (counterexample): the temporal detector's anomaly score exceeds 1 on
`tempCounterObs`, so `anomaly_score ∈ [0,1]` fails as stated. -/
theorem detector_score_counterexample :
    (detect_temporal_inconsistency tempCounterObs).anomaly_score =
      12527/12500 ∧
    1 < (detect_temporal_inconsistency tempCounterObs).anomaly_score ∧
    ¬ ((detect_temporal_inconsistency tempCounterObs).anomaly_score ≤ 1) := by
  decide

/-- C3 (amended): every detector returns
`is_manipulated = (anomaly_score > threshold)` with thresholds 0.35 (flow),
0.3 (temporal), 0.5 (frequency), 0.5 (noise) and 0.2 (copy-move), and the
anomaly score lies in `[0,1]` — unconditionally for flow (given at least
one sample) and copy-move, for frequency given `0 ≤ σ`, for noise given
that the residual correlations lie in `[-1,1]` (Pearson's range), and for
the temporal detector only under the additional assumption that every
per-pair SSIM lies in `[0,1]`: negative SSIM can push its score above 1. -/
theorem detector_score_bounds_amended :
    (∀ obs : List FlowObs, obs ≠ [] →
      0 ≤ (analyze_optical_flow obs).anomaly_score ∧
      (analyze_optical_flow obs).anomaly_score ≤ 1 ∧
      ((analyze_optical_flow obs).is_manipulated = true ↔
        (analyze_optical_flow obs).anomaly_score > 35/100)) ∧
    (∀ ms : List TempObs, ms ≠ [] → (∀ m ∈ ms, 0 ≤ m.ssim ∧ m.ssim ≤ 1) →
      0 ≤ (detect_temporal_inconsistency ms).anomaly_score ∧
      (detect_temporal_inconsistency ms).anomaly_score ≤ 1 ∧
      ((detect_temporal_inconsistency ms).is_manipulated = true ↔
        (detect_temporal_inconsistency ms).anomaly_score > 3/10)) ∧
    (∀ (stats : List FreqFrameStats) (σ : ℚ), 0 ≤ σ →
      0 ≤ (freqAggregate stats σ).anomaly_score ∧
      (freqAggregate stats σ).anomaly_score ≤ 1 ∧
      ((freqAggregate stats σ).is_manipulated = true ↔
        (freqAggregate stats σ).anomaly_score > 1/2)) ∧
    (∀ (stats : List NoiseFrameStats) (cs : List ℚ), stats ≠ [] →
      (∀ c ∈ cs, -1 ≤ c ∧ c ≤ 1) →
      0 ≤ (analyze_noise_pattern stats cs).anomaly_score ∧
      (analyze_noise_pattern stats cs).anomaly_score ≤ 1 ∧
      ((analyze_noise_pattern stats cs).is_manipulated = true ↔
        (analyze_noise_pattern stats cs).anomaly_score > 1/2)) ∧
    (∀ (frames : List CMFrame) (mm : ℕ) (thr : ℚ),
      0 ≤ (detect_copy_move frames mm thr).detection_score ∧
      (detect_copy_move frames mm thr).detection_score ≤ 1 ∧
      ((detect_copy_move frames mm thr).is_manipulated = true ↔
        (detect_copy_move frames mm thr).detection_score > 2/10)) := by
  refine ⟨?_, ?_, ?_, ?_, ?_⟩
  · intro obs hne
    have hr := flowAnomalyRatio_bounds hne
    have hs := flowAvgSmoothness_bounds hne
    refine ⟨?_, ?_, ?_⟩
    · show 0 ≤ flowAnomalyScore obs
      unfold flowAnomalyScore
      linarith [hr.1, hr.2, hs.1, hs.2]
    · show flowAnomalyScore obs ≤ 1
      unfold flowAnomalyScore
      linarith [hr.1, hr.2, hs.1, hs.2]
    · simp [analyze_optical_flow]
  · intro ms hne hssim
    have hr := tempAnomalyRatio_bounds hne
    have hmap : ms.map (·.ssim) ≠ [] := by simpa using hne
    have hlo := le_meanQ hmap (fun x hx => by
      rcases List.mem_map.mp hx with ⟨m, hm, rfl⟩
      exact (hssim m hm).1)
    have hhi := meanQ_le hmap (fun x hx => by
      rcases List.mem_map.mp hx with ⟨m, hm, rfl⟩
      exact (hssim m hm).2)
    refine ⟨?_, ?_, ?_⟩
    · show 0 ≤ tempAnomalyScore ms
      unfold tempAnomalyScore
      linarith [hr.1, hr.2]
    · show tempAnomalyScore ms ≤ 1
      unfold tempAnomalyScore
      linarith [hr.1, hr.2]
    · simp [detect_temporal_inconsistency]
  · intro stats σ hσ
    have h := freqAuthenticityScore_bounds stats hσ
    refine ⟨?_, ?_, ?_⟩
    · show 0 ≤ 1 - freqAuthenticityScore stats σ
      linarith [h.1, h.2]
    · show 1 - freqAuthenticityScore stats σ ≤ 1
      linarith [h.1, h.2]
    · simp [freqAggregate]
  · intro stats cs hne hcs
    have h := noiseAuthenticityScore_bounds hne hcs
    refine ⟨?_, ?_, ?_⟩
    · show 0 ≤ 1 - noiseAuthenticityScore stats cs
      linarith [h.1, h.2]
    · show 1 - noiseAuthenticityScore stats cs ≤ 1
      linarith [h.1, h.2]
    · simp [analyze_noise_pattern]
  · intro frames mm thr
    have h := cmDetectionScore_bounds frames mm thr
    exact ⟨h.1, h.2, by simp [detect_copy_move]⟩

theorem detector_score_bounds_amended_witness :
    (0 ≤ (analyze_optical_flow [⟨0, 0, 0⟩]).anomaly_score ∧
      (analyze_optical_flow [⟨0, 0, 0⟩]).anomaly_score ≤ 1 ∧
      ((analyze_optical_flow [⟨0, 0, 0⟩]).is_manipulated = true ↔
        (analyze_optical_flow [⟨0, 0, 0⟩]).anomaly_score > 35/100)) ∧
    (0 ≤ (detect_temporal_inconsistency [⟨1/2, 30⟩]).anomaly_score ∧
      (detect_temporal_inconsistency [⟨1/2, 30⟩]).anomaly_score ≤ 1 ∧
      ((detect_temporal_inconsistency [⟨1/2, 30⟩]).is_manipulated = true ↔
        (detect_temporal_inconsistency [⟨1/2, 30⟩]).anomaly_score > 3/10)) ∧
    (0 ≤ (freqAggregate [⟨0, 0, 0, false⟩] 0).anomaly_score ∧
      (freqAggregate [⟨0, 0, 0, false⟩] 0).anomaly_score ≤ 1 ∧
      ((freqAggregate [⟨0, 0, 0, false⟩] 0).is_manipulated = true ↔
        (freqAggregate [⟨0, 0, 0, false⟩] 0).anomaly_score > 1/2)) ∧
    (0 ≤ (analyze_noise_pattern [⟨0, 0, false, 0⟩] []).anomaly_score ∧
      (analyze_noise_pattern [⟨0, 0, false, 0⟩] []).anomaly_score ≤ 1 ∧
      ((analyze_noise_pattern [⟨0, 0, false, 0⟩] []).is_manipulated = true ↔
        (analyze_noise_pattern [⟨0, 0, false, 0⟩] []).anomaly_score > 1/2)) ∧
    (0 ≤ (detect_copy_move [] 10 (8/10)).detection_score ∧
      (detect_copy_move [] 10 (8/10)).detection_score ≤ 1 ∧
      ((detect_copy_move [] 10 (8/10)).is_manipulated = true ↔
        (detect_copy_move [] 10 (8/10)).detection_score > 2/10)) :=
  ⟨detector_score_bounds_amended.1 [⟨0, 0, 0⟩] (by simp),
   detector_score_bounds_amended.2.1 [⟨1/2, 30⟩] (by simp)
     (by
       intro m hm
       simp only [List.mem_singleton] at hm
       subst hm
       norm_num),
   detector_score_bounds_amended.2.2.1 [⟨0, 0, 0, false⟩] 0 le_rfl,
   detector_score_bounds_amended.2.2.2.1 [⟨0, 0, false, 0⟩] [] (by simp)
     (by simp),
   detector_score_bounds_amended.2.2.2.2 [] 10 (8/10)⟩

/-- C9: the frequency-domain detector is deterministic.  Its embedding is
a pure function of the decoded pixel data: the result is independent of
the pre-existing external file state (the only state the analyzer touches,
and only by writing), for every per-frame numeric kernel and every
standard-deviation function — the source's kernels (`scipy` FFT, `numpy`
statistics) are themselves fixed deterministic functions and the source
contains no randomness.  In particular a second run, started from the file
state the first run left behind, returns identical `avg_high_freq_ratio`
and `gan_fingerprint_detected`. -/
theorem frequency_determinism :
    (∀ (kern : PixelFrame → FreqFrameStats) (stdFn : List ℚ → ℚ)
        (frames : List PixelFrame) (w w' : World),
      (analyze_frequency_domain kern stdFn frames w).1 =
        (analyze_frequency_domain kern stdFn frames w').1) ∧
    (∀ (kern : PixelFrame → FreqFrameStats) (stdFn : List ℚ → ℚ)
        (frames : List PixelFrame) (w : World),
      (analyze_frequency_domain kern stdFn frames
          (analyze_frequency_domain kern stdFn frames w).2).1.avg_high_freq_ratio =
        (analyze_frequency_domain kern stdFn frames w).1.avg_high_freq_ratio ∧
      (analyze_frequency_domain kern stdFn frames
          (analyze_frequency_domain kern stdFn frames w).2).1.gan_fingerprint_detected =
        (analyze_frequency_domain kern stdFn frames w).1.gan_fingerprint_detected) := by
  have key : ∀ (kern : PixelFrame → FreqFrameStats) (stdFn : List ℚ → ℚ)
      (frames : List PixelFrame) (w w' : World),
      (analyze_frequency_domain kern stdFn frames w).1 =
        (analyze_frequency_domain kern stdFn frames w').1 := by
    intro kern stdFn frames w w'
    simp only [analyze_frequency_domain]
    rw [freqFold_stats_const kern frames [] w w']
  exact ⟨key, fun kern stdFn frames w =>
    ⟨congrArg FreqResult.avg_high_freq_ratio (key kern stdFn frames _ _),
     congrArg FreqResult.gan_fingerprint_detected (key kern stdFn frames _ _)⟩⟩

/-- C6 (amended): `is_forged` holds iff at least `min_matches` keypoints
were detected and at least `min_matches` matches pass the distance-ratio
test and are not self-matches; the ≥ 50 px separation filter applies only
to the reported `match_locations`, which are exactly the spatially
separated good matches when the frame is flagged and empty otherwise. -/
theorem copy_move_frame_amended (kps : List (ℚ × ℚ))
    (ml : List (List MatchRec)) (mm : ℕ) (thr : ℚ) :
    ((detect_copy_move_in_frame kps ml mm thr).1 = true ↔
      (mm ≤ kps.length ∧ mm ≤ (goodMatches ml thr).length)) ∧
    (detect_copy_move_in_frame kps ml mm thr).2 =
      (if (detect_copy_move_in_frame kps ml mm thr).1
       then (goodMatches ml thr).filterMap (spatialPair kps) else []) := by
  by_cases h : kps.length < mm
  · constructor
    · simp only [detect_copy_move_in_frame, if_pos h]
      constructor
      · intro hfalse
        exact absurd hfalse (by decide)
      · rintro ⟨h1, -⟩
        omega
    · simp [detect_copy_move_in_frame, if_pos h]
  · constructor
    · simp only [detect_copy_move_in_frame, if_neg h, decide_eq_true_eq]
      have : mm ≤ kps.length := not_lt.mp h
      tauto
    · simp [detect_copy_move_in_frame, if_neg h]

/-! ### Concrete worker environment and tasks used by witnesses and
counterexamples -/

/-- A concrete environment: no MinIO client, every path exists, the noise
analyzer succeeds, the four unmodelled handlers are unused. -/
def envW : Env :=
  { minioSet := false
    minioSecure := false
    minioEndpoint := "localhost:9000"
    minioBucket := "bkt"
    uploadOk := fun _ => true
    fileExists := fun _ => true
    download := fun _ => .error "offline"
    clock := 1700000000
    noiseOutcome := .ok "noise_results"
    imageAiRun := fun _ => { writes := [], outcome := .error "unused" }
    flowRun := fun _ => { writes := [], outcome := .error "unused" }
    freqRun := fun _ => { writes := [], outcome := .error "unused" }
    temporalRun := fun _ => { writes := [], outcome := .error "unused" }
    copymoveRun := fun _ => { writes := [], outcome := .error "unused" } }

/-- `envW` with a MinIO client whose upload of the temporal-plot artifact
of task `t1` fails while every other upload succeeds. -/
def env4 : Env :=
  { envW with
    minioSet := true
    uploadOk := fun s => decide (s ≠ "tmp_py/t1/noise_temporal_plot.png") }

/-- The empty external state. -/
def store0 : Store := { dedupKeys := [], progressLog := [], published := [] }

/-- A well-formed noise-analysis task with id `t1`. -/
def taskW : Task :=
  { ttype := some "VIDEO_TRADITIONAL_NOISE", taskId := some "t1"
    fileMd5 := none, localPath := some "v.mp4", url := none, minioUrl := none }

/-- A task with an unrecognized type string. -/
def taskBad : Task :=
  { ttype := some "NOT_A_TYPE", taskId := some "t1"
    fileMd5 := none, localPath := none, url := none, minioUrl := none }

/-- The `VIDEO_AI` placeholder task. -/
def taskVideoAI : Task :=
  { ttype := some "VIDEO_AI", taskId := some "t9"
    fileMd5 := none, localPath := none, url := none, minioUrl := none }

/-- A noise-analysis task with neither `taskId` nor `fileMd5`. -/
def taskNoId : Task :=
  { ttype := some "VIDEO_TRADITIONAL_NOISE", taskId := none
    fileMd5 := none, localPath := some "v.mp4", url := none, minioUrl := none }

/-! ### Dispatcher claim theorems -/

/-- C1: a consumed message whose task id already carries a dedup marker is
dropped as a pure no-op (the store — progress log, published results,
dedup keys — is unchanged), and delivering the same noise task twice from
a fresh store, with the first delivery completing successfully, yields
exactly one published Result and exactly one progress-to-100 write in
total. -/
theorem dedup_noop_and_single_publish :
    (∀ (env : Env) (st : Store) (t : Task),
      isTruthy (workerTaskId t) = true →
      st.dedupKeys.contains (processedKey (pyShowOpt (workerTaskId t))) = true →
      stepWorker env st t = st) ∧
    (∀ (env : Env) (t : Task) (id p payload : String),
      t.ttype = some "VIDEO_TRADITIONAL_NOISE" →
      t.taskId = some id → id ≠ "" →
      t.localPath = some p → p ≠ "" →
      env.fileExists p = true →
      env.noiseOutcome = .ok payload →
      (worker_loop env store0 [t, t]).published.length = 1 ∧
      (worker_loop env store0 [t, t]).progressLog.countP
        (fun w => w.progress == 100) = 1) := by
  constructor
  · intro env st t h1 h2
    exact stepWorker_dropped env st t h1 h2
  · intro env t id p payload httype htaskid hid hlp hp hex hno
    have htid : workerTaskId t = some id := by
      simp [workerTaskId, pyOrStr, isTruthy, htaskid, hid]
    have htru : isTruthy (workerTaskId t) = true := by
      rw [htid]
      simp [isTruthy, hid]
    have hrun : runTask env t = process_video_traditional env t := by
      unfold runTask
      rw [httype]
      rfl
    have hpvt := process_video_traditional_ok env t hlp hp hex hno
    obtain ⟨d, hout⟩ : ∃ d, (runTask env t).outcome = .ok d :=
      ⟨_, by rw [hrun, hpvt]⟩
    have h2 : store0.dedupKeys.contains
        (processedKey (pyShowOpt (workerTaskId t))) = false := rfl
    have hstep1 := stepWorker_ok_truthy env store0 t htru h2 hout
    have hfinal : worker_loop env store0 [t, t] =
        { dedupKeys := store0.dedupKeys ++
            [processedKey (pyShowOpt (workerTaskId t))]
          progressLog := store0.progressLog ++ ((runTask env t).writes ++
            [⟨progressKey (pyShowOpt (workerTaskId t)), 100, "Completed"⟩])
          published := store0.published ++
            [{ key := workerTaskId t, success := true, data := some d
               error := none, taskEcho := none }] } := by
      show stepWorker env (stepWorker env store0 t) t = _
      rw [hstep1]
      exact stepWorker_dropped env _ t htru (by simp)
    rw [hfinal]
    constructor
    · simp [store0]
    · have hwr := process_video_traditional_ok_writes env t hlp hp hex hno
      rw [← hrun] at hwr
      have h0 : (runTask env t).writes.countP (fun w => w.progress == 100) = 0 := by
        rw [List.countP_eq_zero]
        intro a ha
        have hle := (hwr a ha).2
        simp only [beq_iff_eq, decide_eq_true_eq]
        omega
      simp [store0, List.countP_append, h0, List.countP_cons]

theorem dedup_noop_and_single_publish_witness :
    (isTruthy (workerTaskId taskW) = true ∧
      (⟨[processedKey "t1"], [], []⟩ : Store).dedupKeys.contains
        (processedKey (pyShowOpt (workerTaskId taskW))) = true ∧
      stepWorker envW ⟨[processedKey "t1"], [], []⟩ taskW =
        ⟨[processedKey "t1"], [], []⟩) ∧
    ((worker_loop envW store0 [taskW, taskW]).published.length = 1 ∧
      (worker_loop envW store0 [taskW, taskW]).progressLog.countP
        (fun w => w.progress == 100) = 1) :=
  ⟨⟨by decide, by decide,
    dedup_noop_and_single_publish.1 envW ⟨[processedKey "t1"], [], []⟩ taskW
      (by decide) (by decide)⟩,
   dedup_noop_and_single_publish.2 envW taskW "t1" "v.mp4" "noise_results"
     rfl rfl (by decide) rfl (by decide) rfl rfl⟩

/-- C2 (counterexample): a task that reaches the failed terminal state
gets its progress set to 100 and its failure Result published, but no
dedup marker is written — the marker write sits in the success branch
only (lines 348-353), not in the `except` branch (lines 354-356). -/
theorem finalize_marker_counterexample :
    (stepWorker envW store0 taskBad).published.length = 1 ∧
    (∀ m ∈ (stepWorker envW store0 taskBad).published, m.success = false) ∧
    (∃ w ∈ (stepWorker envW store0 taskBad).progressLog, w.progress = 100) ∧
    processedKey "t1" ∉ (stepWorker envW store0 taskBad).dedupKeys := by
  decide

/-- C2 (amended): for every processed message with a usable task id, the
dispatcher always appends a progress-to-100 write (message `Completed` on
success, `Failed: <e>` on failure), but the dedup marker is written iff
the handler succeeded. -/
theorem finalize_progress_marker_amended :
    ∀ (env : Env) (st : Store) (t : Task),
      isTruthy (workerTaskId t) = true →
      st.dedupKeys.contains (processedKey (pyShowOpt (workerTaskId t))) = false →
      ((stepWorker env st t).progressLog =
        st.progressLog ++ ((runTask env t).writes ++
          [⟨progressKey (pyShowOpt (workerTaskId t)), 100,
            match (runTask env t).outcome with
            | .ok _ => "Completed"
            | .error e => "Failed: " ++ e⟩])) ∧
      ((processedKey (pyShowOpt (workerTaskId t)) ∈
          (stepWorker env st t).dedupKeys) ↔
        ∃ d, (runTask env t).outcome = .ok d) := by
  intro env st t h1 h2
  have hnotmem : processedKey (pyShowOpt (workerTaskId t)) ∉ st.dedupKeys := by
    intro hmem
    simp [List.contains, List.elem_iff, hmem] at h2
  cases hE : (runTask env t).outcome with
  | ok d =>
      rw [stepWorker_ok_truthy env st t h1 h2 hE]
      refine ⟨by simp [hE], ?_⟩
      simp only [List.mem_append, List.mem_singleton]
      exact ⟨fun _ => ⟨d, rfl⟩, fun _ => by simp⟩
  | error e =>
      rw [stepWorker_err env st t (by rw [h1, h2]; rfl) hE]
      refine ⟨by simp [hE], ?_⟩
      constructor
      · intro hmem
        exact absurd hmem hnotmem
      · rintro ⟨d, hd⟩
        exact absurd hd (by simp)


theorem finalize_progress_marker_amended_witness :
    (isTruthy (workerTaskId taskBad) = true ∧
      store0.dedupKeys.contains
        (processedKey (pyShowOpt (workerTaskId taskBad))) = false) ∧
    ((stepWorker envW store0 taskBad).progressLog =
      store0.progressLog ++ ((runTask envW taskBad).writes ++
        [⟨progressKey (pyShowOpt (workerTaskId taskBad)), 100,
          match (runTask envW taskBad).outcome with
          | .ok _ => "Completed"
          | .error e => "Failed: " ++ e⟩])) ∧
    ((processedKey (pyShowOpt (workerTaskId taskBad)) ∈
        (stepWorker envW store0 taskBad).dedupKeys) ↔
      ∃ d, (runTask envW taskBad).outcome = .ok d) :=
  ⟨⟨by decide, by decide⟩,
   (finalize_progress_marker_amended envW store0 taskBad
     (by decide) (by decide)).1,
   (finalize_progress_marker_amended envW store0 taskBad
     (by decide) (by decide)).2⟩

/-- The artifacts map inside a handler's result, when it succeeded. -/
def outcomeArtifacts (hr : HandlerRun) : Option (List (String × String)) :=
  match hr.outcome with
  | .ok d => some d.artifacts
  | .error _ => none

/-- C4 (counterexample): with a MinIO client present, when the upload of
the `temporal_plot` artifact fails and the other two succeed, the
published artifacts map contains only the two uploaded URLs — the failed
artifact is dropped entirely (`uploaded or artifacts` keeps only the
nonempty uploaded map), instead of keeping its local path as claimed. -/
theorem artifact_besteffort_counterexample :
    outcomeArtifacts (process_video_traditional env4 taskW) =
      some [("distribution_plot",
              "http://localhost:9000/bkt/artifacts/t1/noise_distribution_plot.png"),
            ("visualization",
              "http://localhost:9000/bkt/artifacts/t1/noise_visualization.png")] ∧
    "temporal_plot" ∉
      ((outcomeArtifacts (process_video_traditional env4 taskW)).getD []).map
        Prod.fst := by
  decide

/-- C4 (amended): artifact publishing is best-effort per file.  When the
object-store client is unset, every artifact keeps its local path.  When
the client is set and one artifact's upload fails while the others
succeed, the others are still attempted and carry their uploaded URLs, but
the failed artifact is omitted from the published map (it would keep its
local path only if every upload failed, making the uploaded map empty). -/
theorem artifact_besteffort_amended :
    (∀ (env : Env) (t : Task) (p payload : String),
      env.minioSet = false →
      t.localPath = some p → p ≠ "" → env.fileExists p = true →
      env.noiseOutcome = .ok payload →
      outcomeArtifacts (process_video_traditional env t) =
        some (noiseArtifacts (handlerTaskId env t))) ∧
    (∀ (env : Env) (t : Task) (p payload : String),
      env.minioSet = true →
      t.localPath = some p → p ≠ "" → env.fileExists p = true →
      env.noiseOutcome = .ok payload →
      env.fileExists ("tmp_py/" ++ handlerTaskId env t ++
        "/noise_temporal_plot.png") = true →
      env.fileExists ("tmp_py/" ++ handlerTaskId env t ++
        "/noise_distribution_plot.png") = true →
      env.fileExists ("tmp_py/" ++ handlerTaskId env t ++
        "/noise_visualization.png") = true →
      env.uploadOk ("tmp_py/" ++ handlerTaskId env t ++
        "/noise_temporal_plot.png") = false →
      env.uploadOk ("tmp_py/" ++ handlerTaskId env t ++
        "/noise_distribution_plot.png") = true →
      env.uploadOk ("tmp_py/" ++ handlerTaskId env t ++
        "/noise_visualization.png") = true →
      outcomeArtifacts (process_video_traditional env t) =
        some [("distribution_plot", uploadUrl env (handlerTaskId env t)
                ("tmp_py/" ++ handlerTaskId env t ++ "/noise_distribution_plot.png")),
              ("visualization", uploadUrl env (handlerTaskId env t)
                ("tmp_py/" ++ handlerTaskId env t ++ "/noise_visualization.png"))]) := by
  constructor
  · intro env t p payload hmin hlp hp hex hno
    rw [outcomeArtifacts, process_video_traditional_ok env t hlp hp hex hno]
    simp [upload_artifacts, hmin]
  · intro env t p payload hmin hlp hp hex hno hex1 hex2 hex3 hup1 hup2 hup3
    rw [outcomeArtifacts, process_video_traditional_ok env t hlp hp hex hno]
    simp only [upload_artifacts, hmin, if_true, noiseArtifacts, List.foldl_cons,
      List.foldl_nil, uploadStep, hex1, hex2, hex3, hup1, hup2, hup3,
      Bool.false_eq_true, if_false]
    simp

theorem artifact_besteffort_amended_witness :
    (outcomeArtifacts (process_video_traditional envW taskW) =
      some (noiseArtifacts (handlerTaskId envW taskW))) ∧
    (outcomeArtifacts (process_video_traditional env4 taskW) =
      some [("distribution_plot", uploadUrl env4 (handlerTaskId env4 taskW)
              ("tmp_py/" ++ handlerTaskId env4 taskW ++ "/noise_distribution_plot.png")),
            ("visualization", uploadUrl env4 (handlerTaskId env4 taskW)
              ("tmp_py/" ++ handlerTaskId env4 taskW ++ "/noise_visualization.png"))]) :=
  ⟨artifact_besteffort_amended.1 envW taskW "v.mp4" "noise_results"
     rfl rfl (by decide) rfl rfl,
   artifact_besteffort_amended.2 env4 taskW "v.mp4" "noise_results"
     rfl rfl (by decide) rfl rfl (by decide) (by decide) (by decide)
     (by decide) (by decide) (by decide)⟩

/-- C5 (counterexample): the worker accepts a seventh type string,
`VIDEO_AI`, that is none of the six enumerated task types, and publishes a
*success* result (`status NOT_IMPLEMENTED`) for it rather than a failure
whose error mentions "Unknown task type". -/
theorem unknown_type_counterexample :
    (∀ s ∈ sixTaskTypes, taskVideoAI.ttype ≠ some s) ∧
    (stepWorker envW store0 taskVideoAI).published.length = 1 ∧
    (∀ m ∈ (stepWorker envW store0 taskVideoAI).published,
      m.success = true ∧ m.error = none) := by
  decide

/-- C5 (amended): for every consumed message whose type is not one of the
*seven* handled values (the six analysis types plus the `VIDEO_AI`
placeholder), the dispatcher publishes exactly one failure Result whose
error string starts with "Unknown task type", writes no dedup marker, and
the loop goes on to the next message (processing is a total step
function). -/
theorem unknown_type_amended :
    ∀ (env : Env) (st : Store) (t : Task),
      isHandledType t.ttype = false →
      (isTruthy (workerTaskId t) && st.dedupKeys.contains
        (processedKey (pyShowOpt (workerTaskId t)))) = false →
      ((stepWorker env st t).published = st.published ++
        [{ key := if isTruthy (workerTaskId t) then workerTaskId t else none
           success := false, data := none
           error := some ("Unknown task type: " ++ pyShowOpt t.ttype)
           taskEcho := some t }]) ∧
      (∃ rest, "Unknown task type: " ++ pyShowOpt t.ttype =
        "Unknown task type" ++ rest) ∧
      ((stepWorker env st t).dedupKeys = st.dedupKeys) ∧
      (∀ next : Task, worker_loop env st [t, next] =
        stepWorker env (stepWorker env st t) next) := by
  intro env st t h hdrop
  have hout : (runTask env t).outcome =
      .error ("Unknown task type: " ++ pyShowOpt t.ttype) := by
    rw [runTask_unknown env t h]
  have hstepEq := stepWorker_err env st t hdrop hout
  exact ⟨by simp [hstepEq],
         ⟨": " ++ pyShowOpt t.ttype, by
           rw [← String.append_assoc]
           rfl⟩,
         by simp [hstepEq], fun next => rfl⟩

theorem unknown_type_amended_witness :
    ((stepWorker envW store0 taskBad).published = store0.published ++
      [{ key := if isTruthy (workerTaskId taskBad) then workerTaskId taskBad
                else none
         success := false, data := none
         error := some ("Unknown task type: " ++ pyShowOpt taskBad.ttype)
         taskEcho := some taskBad }]) ∧
    ((stepWorker envW store0 taskBad).dedupKeys = store0.dedupKeys) :=
  ⟨(unknown_type_amended envW store0 taskBad (by decide) (by decide)).1,
   (unknown_type_amended envW store0 taskBad (by decide) (by decide)).2.2.1⟩

/-- C10: a consumed noise task with neither `taskId` nor `fileMd5` skips
the dedup check (it is processed whatever the ledger holds), publishes its
Result keyed by a null key, writes no dedup marker, and the handler's own
progress records go under the fresh wall-clock identifier
`str(int(time.time()))` — a key different from the null Result key;
redelivering the same message publishes a second Result. -/
theorem null_id_task :
    ∀ (env : Env) (st : Store) (t : Task) (p payload : String),
      t.taskId = none → t.fileMd5 = none →
      t.ttype = some "VIDEO_TRADITIONAL_NOISE" →
      t.localPath = some p → p ≠ "" →
      env.fileExists p = true →
      env.noiseOutcome = .ok payload →
      (∃ d, (stepWorker env st t).published =
          st.published ++ [{ key := none, success := true, data := some d
                             error := none, taskEcho := none }]) ∧
      (stepWorker env st t).dedupKeys = st.dedupKeys ∧
      (∀ w ∈ (runTask env t).writes,
          w.key = progressKey (toString env.clock)) ∧
      (worker_loop env st [t, t]).published.length = st.published.length + 2 := by
  intro env st t p payload htaskid hmd5 httype hlp hp hex hno
  have hfal : isTruthy (workerTaskId t) = false := by
    simp [workerTaskId, pyOrStr, isTruthy, htaskid, hmd5]
  have hclock : handlerTaskId env t = toString env.clock := by
    simp [handlerTaskId, pyOrStr, isTruthy, htaskid, hmd5]
  have hrun : runTask env t = process_video_traditional env t := by
    unfold runTask
    rw [httype]
    rfl
  obtain ⟨d, hout⟩ : ∃ d, (runTask env t).outcome = .ok d :=
    ⟨_, by rw [hrun, process_video_traditional_ok env t hlp hp hex hno]⟩
  have hstep := stepWorker_ok_falsy env st t hfal hout
  refine ⟨⟨d, by rw [hstep]⟩, by rw [hstep], ?_, ?_⟩
  · intro w hw
    have hkey := (process_video_traditional_ok_writes env t hlp hp hex hno w
      (by rwa [← hrun])).1
    rw [← hclock]
    exact hkey
  · have hstep2 := stepWorker_ok_falsy env (stepWorker env st t) t hfal hout
    show (stepWorker env (stepWorker env st t) t).published.length = _
    rw [hstep2, hstep]
    simp

theorem null_id_task_witness :
    ((∃ d, (stepWorker envW store0 taskNoId).published =
        store0.published ++ [{ key := none, success := true, data := some d
                               error := none, taskEcho := none }]) ∧
      (stepWorker envW store0 taskNoId).dedupKeys = store0.dedupKeys ∧
      (∀ w ∈ (runTask envW taskNoId).writes,
          w.key = progressKey (toString envW.clock)) ∧
      (worker_loop envW store0 [taskNoId, taskNoId]).published.length =
        store0.published.length + 2) :=
  null_id_task envW store0 taskNoId "v.mp4" "noise_results"
    rfl rfl rfl rfl (by decide) rfl rfl

end DFForensic
